import Mathlib

/-
Verification of the NES emulator bus (`src/bus.rs`): address mirroring,
device dispatch, hook ordering, and bounds behaviour of the shared
address space.

Modelling conventions:
- Bytes and 16-bit addresses are `Nat`; the `as u8` casts of the source
  appear as explicit `% 256`.
- The Rust buffer `[u8; 0xFFFF]` is modelled as a total function
  `Nat → Nat` together with the constant `MEM_SIZE = 0xFFFF`; any access
  the Rust code would panic on (index out of bounds) is `none`.
- A device's hooks mutate memory through pointers cached into its mapped
  slice; a hook is therefore modelled as a memory transformer
  `AddressSpace → AddressSpace`.  The trait-method names of the source
  (`Device::mem_read`, `Device::mem_write`) are kept: the bus invokes
  `mem_write` on a CPU read and `mem_read` on a CPU write, exactly as in
  `Bus::mem_read_u8` / `Bus::mem_write_u8`.
-/

set_option maxRecDepth 4000

namespace NesBus

/-- The shared byte buffer, indexed by address. -/
def AddressSpace := Nat → Nat

/-- Size of the Rust buffer `[u8; 0xFFFF]`: 0xFFFF = 65535 bytes. -/
def MEM_SIZE : Nat := 0xFFFF

/-- `const RAM_MIRRORING_MASK: u16 = 0b0000_0111_1111_1111;` -/
def RAM_MIRRORING_MASK : Nat := 0b0000011111111111

/-- `const PPU_REGISTERS_MIRRORING_MASK: u16 = 0b0010_0000_0000_0111;` -/
def PPU_REGISTERS_MIRRORING_MASK : Nat := 0b0010000000000111

/-- `fn mirror_address(addr: u16) -> u16` — the pure mirroring function. -/
def mirror_address (addr : Nat) : Nat :=
  if addr ≤ 0x1FFF then addr &&& RAM_MIRRORING_MASK
  else if addr ≤ 0x3FFF then addr &&& PPU_REGISTERS_MIRRORING_MASK
  else addr

/-- The `Device` trait: each hook mutates memory through the device's
cached view.  `mem_write` is the hook the bus fires on a CPU read,
`mem_read` the hook it fires on a CPU write (source naming). -/
structure Device where
  mem_read : AddressSpace → AddressSpace
  mem_write : AddressSpace → AddressSpace

/-- `struct Bus { memory: *mut [u8; 0xFFFF], devices: Vec<(Range<usize>, *mut dyn Device)> }`;
a mapping entry's range `lo..hi` is the pair `(lo, hi)` (half-open). -/
structure Bus where
  memory : AddressSpace
  devices : List ((Nat × Nat) × Device)

/-- `Bus::mapped_device`: first mapping entry whose half-open range
contains the address. -/
def Bus.mapped_device (bus : Bus) (addr : Nat) : Option Device :=
  (bus.devices.find? (fun rd => decide (rd.1.1 ≤ addr ∧ addr < rd.1.2))).map (·.2)

/-- Single-byte store into an address space. -/
def store (mem : AddressSpace) (a v : Nat) : AddressSpace :=
  fun x => if x = a then v else mem x

/-- `Bus::mem_read_u8`: mirror the address, fire the mapped device's
`mem_write` hook (if any), then fetch the byte at the mirrored address.
`none` models the out-of-bounds panic of `(*self.memory)[addr]`. -/
def Bus.mem_read_u8 (bus : Bus) (addr : Nat) : Option (Nat × Bus) :=
  let a := mirror_address addr
  let mem' := match bus.mapped_device a with
    | some d => d.mem_write bus.memory
    | none => bus.memory
  if a < MEM_SIZE then some (mem' a, { bus with memory := mem' }) else none

/-- `Bus::mem_write_u8`: mirror the address, store the byte at the
mirrored address, then fire the mapped device's `mem_read` hook (if any).
`none` models the out-of-bounds panic of the store. -/
def Bus.mem_write_u8 (bus : Bus) (addr data : Nat) : Option Bus :=
  let a := mirror_address addr
  if a < MEM_SIZE then
    let mem' := store bus.memory a data
    let mem'' := match bus.mapped_device a with
      | some d => d.mem_read mem'
      | none => mem'
    some { bus with memory := mem'' }
  else none

/-- `copy_from_slice`: byte-by-byte copy of `data` into `mem` starting
at `dest`. -/
def copy_from_slice (mem : AddressSpace) (data : List Nat) (dest : Nat) : AddressSpace :=
  match data with
  | [] => mem
  | d :: rest => copy_from_slice (store mem dest d) rest (dest + 1)

/-- `Bus::load`: `(*self.memory)[dest..dest + data.len()].copy_from_slice(data)`;
slicing a `[u8; 0xFFFF]` panics (`none`) unless `dest + data.len() ≤ 0xFFFF`.
No mirroring, no device hooks. -/
def Bus.load (bus : Bus) (data : List Nat) (dest : Nat) : Option Bus :=
  if dest + data.length ≤ MEM_SIZE then
    some { bus with memory := copy_from_slice bus.memory data dest }
  else none

/-- `MockDevice::mem_read` (tests): for `i` in `start..start+2`, write
`(i + 1) as u8` at address `i` through the cached pointers. -/
def MockDevice.mem_read (start : Nat) (mem : AddressSpace) : AddressSpace :=
  store (store mem start ((start + 1) % 256)) (start + 1) ((start + 1 + 1) % 256)

/-- `MockDevice::mem_write` (tests): for `i` in `start..start+2`, write
`(2 * i + 1) as u8` at address `i` through the cached pointers. -/
def MockDevice.mem_write (start : Nat) (mem : AddressSpace) : AddressSpace :=
  store (store mem start ((2 * start + 1) % 256)) (start + 1) ((2 * (start + 1) + 1) % 256)

/-- A `MockDevice` with mapping range `start..start+2`, as a `Device`. -/
def MockDevice (start : Nat) : Device :=
  { mem_read := MockDevice.mem_read start, mem_write := MockDevice.mem_write start }

/-- The bus of the test `test_bus_mapping_read`: memory 99 everywhere
except address 0 = 10, mock devices at `[0,2)` and `[10,12)`. -/
def busScenario : Bus :=
  { memory := fun x => if x = 0 then 10 else 99,
    devices := [((0, 2), MockDevice 0), ((10, 12), MockDevice 10)] }

/-- A device-free bus with memory constantly 99. -/
def busNoDev : Bus := { memory := fun _ => 99, devices := [] }

theorem store_self (mem : AddressSpace) (a v : Nat) : store mem a v a = v := by
  simp [store]

theorem store_other (mem : AddressSpace) (a v x : Nat) (h : x ≠ a) :
    store mem a v x = mem x := by
  simp [store, h]

/-- C1: when a device's range contains the mirrored address of a read,
`Bus.mem_read_u8` first invokes that device's pre-read hook (the trait
method named `mem_write`) and only afterwards fetches the byte at the
mirrored address, so the returned byte is read from the post-hook memory. -/
theorem read_invokes_hook_then_fetches (bus : Bus) (addr : Nat) (d : Device)
    (hd : bus.mapped_device (mirror_address addr) = some d)
    (hb : mirror_address addr < MEM_SIZE) :
    bus.mem_read_u8 addr =
      some (d.mem_write bus.memory (mirror_address addr),
            { bus with memory := d.mem_write bus.memory }) := by
  simp [Bus.mem_read_u8, hd, hb]

/-- Witness for C1: the scenario bus at address 0 (mock device mapped
at `[0,2)`). -/
theorem read_invokes_hook_then_fetches_witness :
    Bus.mem_read_u8 busScenario 0 =
      some ((MockDevice 0).mem_write busScenario.memory (mirror_address 0),
            { busScenario with memory := (MockDevice 0).mem_write busScenario.memory }) :=
  read_invokes_hook_then_fetches busScenario 0 (MockDevice 0) rfl (by decide)

/-- C2: when a device's range contains the mirrored address of a write,
`Bus.mem_write_u8` first stores the data byte at the mirrored address and
only afterwards invokes that device's post-write hook (the trait method
named `mem_read`): the hook receives a memory that already holds the
freshly written value at the mirrored address. -/
theorem write_stores_then_invokes_hook (bus : Bus) (addr data : Nat) (d : Device)
    (hd : bus.mapped_device (mirror_address addr) = some d)
    (hb : mirror_address addr < MEM_SIZE) :
    store bus.memory (mirror_address addr) data (mirror_address addr) = data ∧
    bus.mem_write_u8 addr data =
      some { bus with
              memory := d.mem_read (store bus.memory (mirror_address addr) data) } := by
  refine ⟨store_self _ _ _, ?_⟩
  simp [Bus.mem_write_u8, hd, hb]

/-- Witness for C2: the scenario bus written at address 10 (mock device
mapped at `[10,12)`). -/
theorem write_stores_then_invokes_hook_witness :
    store busScenario.memory (mirror_address 10) 0 (mirror_address 10) = 0 ∧
    Bus.mem_write_u8 busScenario 10 0 =
      some { busScenario with
              memory := (MockDevice 10).mem_read
                (store busScenario.memory (mirror_address 10) 0) } :=
  write_stores_then_invokes_hook busScenario 10 0 (MockDevice 10) rfl (by decide)

/-- C3: `mirror_address` is a pure total function satisfying: on
0x0000–0x1FFF it is `addr &&& 0x07FF`, on 0x2000–0x3FFF it is
`addr &&& 0x2007`, elsewhere it is the identity. -/
theorem mirror_address_cases (addr : Nat) (h : addr < 0x10000) :
    (addr ≤ 0x1FFF → mirror_address addr = addr &&& 0x07FF) ∧
    (0x2000 ≤ addr → addr ≤ 0x3FFF → mirror_address addr = addr &&& 0x2007) ∧
    (0x3FFF < addr → mirror_address addr = addr) := by
  unfold mirror_address RAM_MIRRORING_MASK PPU_REGISTERS_MIRRORING_MASK
  refine ⟨fun h1 => ?_, fun h1 h2 => ?_, fun h1 => ?_⟩ <;>
    split_ifs <;> first | rfl | (exfalso; omega)

/-- Witness for C3: one address from each of the three ranges. -/
theorem mirror_address_cases_witness :
    mirror_address 0x1234 = 0x1234 &&& 0x07FF ∧
    mirror_address 0x2345 = 0x2345 &&& 0x2007 ∧
    mirror_address 0x4567 = 0x4567 :=
  ⟨(mirror_address_cases 0x1234 (by decide)).1 (by decide),
   (mirror_address_cases 0x2345 (by decide)).2.1 (by decide) (by decide),
   (mirror_address_cases 0x4567 (by decide)).2.2 (by decide)⟩

theorem and_mask_ge_2000 (a : Nat) (h1 : 0x2000 ≤ a) (h2 : a ≤ 0x3FFF) :
    0x2000 ≤ a &&& 0x2007 := by
  have ht : a.testBit 13 = true := by
    rw [Nat.testBit_to_div_mod]
    simp only [decide_eq_true_eq]
    have h3 : a / 2 ^ 13 = 1 := by
      have : (2 : Nat) ^ 13 = 8192 := by norm_num
      rw [this]; omega
    rw [h3]
  have ht2 : (a &&& 0x2007).testBit 13 = true := by
    rw [Nat.testBit_and, ht]
    decide
  exact le_trans (by norm_num) (Nat.testBit_implies_ge ht2)

theorem mirror_address_idem (a : Nat) :
    mirror_address (mirror_address a) = mirror_address a := by
  by_cases h1 : a ≤ 0x1FFF
  · have hr : a &&& RAM_MIRRORING_MASK ≤ 0x1FFF :=
      le_trans Nat.and_le_right (by norm_num [RAM_MIRRORING_MASK])
    simp only [mirror_address, if_pos h1, if_pos hr]
    rw [Nat.and_assoc, Nat.and_self]
  · by_cases h2 : a ≤ 0x3FFF
    · have hlo : 0x2000 ≤ a &&& PPU_REGISTERS_MIRRORING_MASK := by
        have := and_mask_ge_2000 a (by omega) h2
        simpa [PPU_REGISTERS_MIRRORING_MASK] using this
      have hhi : a &&& PPU_REGISTERS_MIRRORING_MASK ≤ 0x3FFF :=
        le_trans Nat.and_le_right (by norm_num [PPU_REGISTERS_MIRRORING_MASK])
      have hne : ¬ a &&& PPU_REGISTERS_MIRRORING_MASK ≤ 0x1FFF := by omega
      simp only [mirror_address, if_neg h1, if_pos h2, if_neg hne, if_pos hhi]
      rw [Nat.and_assoc, Nat.and_self]
    · simp only [mirror_address, if_neg h1, if_neg h2]

/-- C8: the mirroring function is idempotent on every 16-bit address. -/
theorem mirror_address_idempotent (a : Nat) (h : a < 0x10000) :
    mirror_address (mirror_address a) = mirror_address a :=
  mirror_address_idem a

/-- Witness for C8 at address 0x2345. -/
theorem mirror_address_idempotent_witness :
    0x2345 < 0x10000 ∧
    mirror_address (mirror_address 0x2345) = mirror_address 0x2345 :=
  ⟨by decide, mirror_address_idempotent 0x2345 (by decide)⟩

/-- C4 (code bug): the buffer is `[u8; 0xFFFF]` — 65535 bytes, one short
of the 65536 the spec states — so reading address 0xFFFF (mirrored to
itself) indexes out of bounds and aborts instead of being a valid access. -/
theorem address_space_one_byte_short :
    MEM_SIZE = 65535 ∧ Bus.mem_read_u8 busNoDev 0xFFFF = none :=
  ⟨rfl, rfl⟩

/-- Counterexample to C5: reading unmapped address 0x4020 (outside the
special mirrored ranges) completes as a plain memory access returning the
stored byte 99; it is not a fatal abort. -/
theorem unmapped_access_no_abort_counterexample :
    Bus.mem_read_u8 busNoDev 0x4020 = some (99, busNoDev) ∧
    Bus.mem_read_u8 busNoDev 0x4020 ≠ none :=
  ⟨rfl, fun hc => Option.noConfusion
    ((rfl : Bus.mem_read_u8 busNoDev 0x4020 = some (99, busNoDev)).symm.trans hc)⟩

/-- C5 (amended): an access whose mirrored address lies outside every
mapped device's range and outside the special mirrored ranges completes
as a plain memory access — no hook fires, the read returns the stored
byte with the bus unchanged, the write stores the byte — provided the
address is within the 65535-byte buffer. -/
theorem unmapped_access_plain_memory (bus : Bus) (addr data : Nat)
    (hout : 0x3FFF < addr)
    (hd : bus.mapped_device addr = none)
    (hb : addr < MEM_SIZE) :
    bus.mem_read_u8 addr = some (bus.memory addr, bus) ∧
    bus.mem_write_u8 addr data =
      some { bus with memory := store bus.memory addr data } := by
  have hm : mirror_address addr = addr := by
    unfold mirror_address
    rw [if_neg (by omega), if_neg (by omega)]
  constructor
  · simp [Bus.mem_read_u8, hm, hd, hb]
  · simp [Bus.mem_write_u8, hm, hd, hb]

/-- Witness for the amended C5 at address 0x4021. -/
theorem unmapped_access_plain_memory_witness :
    Bus.mem_read_u8 busNoDev 0x4021 = some (busNoDev.memory 0x4021, busNoDev) ∧
    Bus.mem_write_u8 busNoDev 0x4021 7 =
      some { busNoDev with memory := store busNoDev.memory 0x4021 7 } :=
  unmapped_access_plain_memory busNoDev 0x4021 7 (by decide) rfl (by decide)

/-- C6: the scenario of `test_bus_mapping_read` — mock devices at `[0,2)`
and `[10,12)`, memory 99 everywhere except address 0 = 10; after
`read_u8(0)` then `read_u8(10)` the final memory holds 1, 3, 21, 23 at
addresses 0, 1, 10, 11 and 99 everywhere else. -/
theorem mock_read_scenario_final_memory :
    ∃ b₁ b₂, Bus.mem_read_u8 busScenario 0 = some (1, b₁) ∧
      Bus.mem_read_u8 b₁ 10 = some (21, b₂) ∧
      ∀ x, b₂.memory x =
        if x = 0 then 1 else if x = 1 then 3 else
        if x = 10 then 21 else if x = 11 then 23 else 99 := by
  refine ⟨{ busScenario with memory := MockDevice.mem_write 0 busScenario.memory },
         { busScenario with
            memory := MockDevice.mem_write 10 (MockDevice.mem_write 0 busScenario.memory) },
         rfl, rfl, fun x => ?_⟩
  simp only [MockDevice.mem_write, store, busScenario]
  split_ifs <;> omega

/-- Counterexample to C7: address 0xFFFF is mapped by no device, yet the
write panics there (the buffer holds only 65535 bytes), so no round trip
through `mem_write_u8`/`mem_read_u8` returns the written byte 7. -/
theorem write_round_trip_fails_at_FFFF :
    Bus.mapped_device busNoDev (mirror_address 0xFFFF) = none ∧
    Bus.mem_write_u8 busNoDev 0xFFFF 7 = none ∧
    ¬ ∃ bus', Bus.mem_write_u8 busNoDev 0xFFFF 7 = some bus' ∧
        Bus.mem_read_u8 bus' 0xFFFF = some (7, bus') := by
  refine ⟨rfl, rfl, ?_⟩
  rintro ⟨bus', h1, -⟩
  exact Option.noConfusion
    ((rfl : Bus.mem_write_u8 busNoDev 0xFFFF 7 = none).symm.trans h1)

/-- C7 (amended): writing byte `v` at an unmapped address whose mirrored
address is within the 65535-byte buffer and immediately reading the same
address back returns `v`. -/
theorem write_read_round_trip (bus : Bus) (addr v : Nat)
    (hd : bus.mapped_device (mirror_address addr) = none)
    (hb : mirror_address addr < MEM_SIZE) (hv : v < 256) :
    ∃ bus', bus.mem_write_u8 addr v = some bus' ∧
      bus'.mem_read_u8 addr = some (v, bus') := by
  refine ⟨{ bus with memory := store bus.memory (mirror_address addr) v }, ?_, ?_⟩
  · simp [Bus.mem_write_u8, hd, hb]
  · have hd' : Bus.mapped_device
        { bus with memory := store bus.memory (mirror_address addr) v }
        (mirror_address addr) = none := hd
    simp [Bus.mem_read_u8, hd', hb, store_self]

/-- Witness for C7: byte 7 written to address 0x1234 of the device-free
bus and read back. -/
theorem write_read_round_trip_witness :
    ∃ bus', Bus.mem_write_u8 busNoDev 0x1234 7 = some bus' ∧
      Bus.mem_read_u8 bus' 0x1234 = some (7, bus') :=
  write_read_round_trip busNoDev 0x1234 7 rfl (by decide) (by decide)

/-- C9 (code bug): with one data byte and `dest = 0xFFFF` the stated
precondition `dest + len(data) ≤ 65536` holds, yet `Bus::load` slices
`memory[65535..65536]` out of the 65535-byte buffer and panics instead of
completing. -/
theorem load_within_spec_bound_aborts :
    0xFFFF + [(7 : Nat)].length ≤ 65536 ∧ Bus.load busNoDev [7] 0xFFFF = none :=
  ⟨by decide, rfl⟩

/-- C10: at an unmapped in-bounds address, a read leaves the whole bus
state (every byte of memory) unchanged, and a write changes at most the
single byte at the mirrored address. -/
theorem unmapped_access_frame (bus : Bus) (addr data : Nat)
    (hd : bus.mapped_device (mirror_address addr) = none)
    (hb : mirror_address addr < MEM_SIZE) :
    bus.mem_read_u8 addr = some (bus.memory (mirror_address addr), bus) ∧
    ∃ bus', bus.mem_write_u8 addr data = some bus' ∧
      bus'.devices = bus.devices ∧
      bus'.memory (mirror_address addr) = data ∧
      ∀ x, x ≠ mirror_address addr → bus'.memory x = bus.memory x := by
  refine ⟨?_, { bus with memory := store bus.memory (mirror_address addr) data },
          ?_, rfl, store_self _ _ _, fun x hx => store_other _ _ _ _ hx⟩
  · simp [Bus.mem_read_u8, hd, hb]
  · simp [Bus.mem_write_u8, hd, hb]

/-- Witness for C10: address 5 of the scenario bus, which no device maps. -/
theorem unmapped_access_frame_witness :
    Bus.mem_read_u8 busScenario 5 =
      some (busScenario.memory (mirror_address 5), busScenario) ∧
    ∃ bus', Bus.mem_write_u8 busScenario 5 42 = some bus' ∧
      bus'.devices = busScenario.devices ∧
      bus'.memory (mirror_address 5) = 42 ∧
      ∀ x, x ≠ mirror_address 5 → bus'.memory x = busScenario.memory x :=
  unmapped_access_frame busScenario 5 42 rfl (by decide)

end NesBus
